import Mathlib

/-!
Verification of the credential & protocol-parameter generation subsystem of
the panel dashboard's core-configuration editor.

The TypeScript source is shallowly embedded: pure computations become Lean
functions over `String`/`List Char`, the React component state becomes an
explicit `GenState` record with each handler a state-transition function, and
the platform collaborators (CSPRNG, `btoa`, `JSON.parse`) are modelled by
executable Lean definitions of their standard semantics.  JavaScript string
operations (`trim`, `split('.')`, `join('.')`) are reimplemented structurally
so that every definition evaluates by kernel reduction.
-/

/-- The whitespace test used to model JavaScript `String.prototype.trim`
(the ASCII whitespace subset, which covers every input this component
produces or consumes). -/
def jsWhitespace (c : Char) : Bool :=
  c = ' ' || c = '\t' || c = '\n' || c = '\r' || c = '\x0b' || c = '\x0c'

/-- List-level model of JavaScript `trim`: drop whitespace from the front,
then from the back. -/
def jsTrimL (l : List Char) : List Char :=
  ((l.dropWhile jsWhitespace).reverse.dropWhile jsWhitespace).reverse

/-- JavaScript `value.trim()`. -/
def jsTrim (s : String) : String :=
  ⟨jsTrimL s.data⟩

/-- List-level model of JavaScript `value.split('.')`, computed from the
right: returns the first group paired with the remaining groups. -/
def splitDotP : List Char → (List Char × List (List Char))
  | [] => ([], [])
  | c :: rest =>
      let p := splitDotP rest
      if c = '.' then ([], p.1 :: p.2) else (c :: p.1, p.2)

/-- JavaScript `value.split('.')` at the character-list level (always a
non-empty list of groups, like the JS result). -/
def splitDot (l : List Char) : List (List Char) :=
  (splitDotP l).1 :: (splitDotP l).2

/-- JavaScript `value.split('.')` on strings. -/
def jsSplitDot (s : String) : List String :=
  (splitDot s.data).map (fun l => String.mk l)

/-- JavaScript `segments.join('.')`. -/
def jsJoinDot : List String → String
  | [] => ""
  | [s] => s
  | s :: rest => s ++ "." ++ jsJoinDot rest

/-! Constants of the VLESS builder, verbatim from the source. -/

def DEFAULT_VLESS_HANDSHAKE : String := "mlkem768x25519plus"

def DEFAULT_VLESS_ENCRYPTION : String := "native"

def DEFAULT_VLESS_PADDING : String := "100-111-1111.75-0-111.50-0-3333"

def DEFAULT_VLESS_SERVER_TICKET : String := "600s"

/-- One entry of the enumerated session-resumption options. -/
structure VlessResumeOption where
  value : String
  label : String
  translationKey : String
deriving DecidableEq

/-- `VLESS_RESUME_OPTIONS`: the enumerated client session-resumption
options, in source order. -/
def VLESS_RESUME_OPTIONS : List VlessResumeOption :=
  [⟨"0rtt", "0rtt", "coreConfigModal.vlessResumeOption0rtt"⟩,
   ⟨"1rtt", "1rtt", "coreConfigModal.vlessResumeOption1rtt"⟩]

/-- `DEFAULT_VLESS_RESUME = VLESS_RESUME_OPTIONS[0].value`: the client
ticket fallback is sourced from the first enumerated resumption option. -/
def DEFAULT_VLESS_RESUME : String :=
  (VLESS_RESUME_OPTIONS.get ⟨0, by decide⟩).value

/-- The `VlessBuilderOptions` interface: user-edited builder state. -/
structure VlessBuilderOptions where
  handshakeMethod : String
  encryptionMethod : String
  serverTicket : String
  clientTicket : String
  serverPadding : String
  clientPadding : String
  includeServerPadding : Bool
  includeClientPadding : Bool
deriving DecidableEq

/-- `createDefaultVlessOptions()` from the source. -/
def createDefaultVlessOptions : VlessBuilderOptions :=
  { handshakeMethod := DEFAULT_VLESS_HANDSHAKE
    encryptionMethod := DEFAULT_VLESS_ENCRYPTION
    serverTicket := DEFAULT_VLESS_SERVER_TICKET
    clientTicket := DEFAULT_VLESS_RESUME
    serverPadding := DEFAULT_VLESS_PADDING
    clientPadding := DEFAULT_VLESS_PADDING
    includeServerPadding := false
    includeClientPadding := false }

/-- `normalizeOption` from `generateVLESSEncryption`: `undefined` (here
`none`) and the empty string are falsy and yield the fallback; otherwise the
trimmed value is returned unless it is empty after trimming. -/
def normalizeOption (value : Option String) (fallback : String) : String :=
  match value with
  | none => fallback
  | some v =>
      if v = "" then fallback
      else if (jsTrim v).length > 0 then jsTrim v else fallback

/-- `sanitizeSegments` from `generateVLESSEncryption`: split on `'.'`, trim
each piece, drop empty pieces. -/
def sanitizeSegments (value : String) : List String :=
  ((jsSplitDot value).map jsTrim).filter (fun seg => decide (seg.length > 0))

/-- `buildConfig` from `generateVLESSEncryption`.  `handshakeMethod` and
`encryptionMethod` are the already-normalized closure values of the source;
the remaining parameters mirror the source's argument object. -/
def buildConfig (handshakeMethod encryptionMethod ticketValue paddingValue : String)
    (includePadding : Bool) (authParam fallbackTicket : String) : String :=
  let segments :=
    [handshakeMethod, encryptionMethod, normalizeOption (some ticketValue) fallbackTicket]
  let segments :=
    segments ++
      (if includePadding then
        sanitizeSegments (normalizeOption (some paddingValue) DEFAULT_VLESS_PADDING)
      else [])
  let segments := segments ++ [authParam]
  jsJoinDot segments

/-- One key-agreement variant's pair of role strings. -/
structure VlessVariantPair where
  decryption : String
  encryption : String
deriving DecidableEq

/-- The `resultData` of `generateVLESSEncryption`: both variants' role
strings plus the options they were built from. -/
structure VlessResult where
  x25519 : VlessVariantPair
  mlkem768 : VlessVariantPair
  options : VlessBuilderOptions
deriving DecidableEq

/-- The pure core of `generateVLESSEncryption`: given the options and the
four encoded key-material tokens (x25519 server/client, ML-KEM-768
server/client), produce both variants' `decryption`/`encryption` strings
exactly as the source's four `buildConfig` calls do. -/
def generateVLESSEncryptionPure (opts : VlessBuilderOptions)
    (x25519ServerKey x25519ClientKey mlkem768ServerKey mlkem768ClientKey : String) :
    VlessResult :=
  let handshakeMethod := normalizeOption (some opts.handshakeMethod) DEFAULT_VLESS_HANDSHAKE
  let encryptionMethod := normalizeOption (some opts.encryptionMethod) DEFAULT_VLESS_ENCRYPTION
  { x25519 :=
      { decryption :=
          buildConfig handshakeMethod encryptionMethod opts.serverTicket opts.serverPadding
            opts.includeServerPadding x25519ServerKey DEFAULT_VLESS_SERVER_TICKET
        encryption :=
          buildConfig handshakeMethod encryptionMethod opts.clientTicket opts.clientPadding
            opts.includeClientPadding x25519ClientKey DEFAULT_VLESS_RESUME }
    mlkem768 :=
      { decryption :=
          buildConfig handshakeMethod encryptionMethod opts.serverTicket opts.serverPadding
            opts.includeServerPadding mlkem768ServerKey DEFAULT_VLESS_SERVER_TICKET
        encryption :=
          buildConfig handshakeMethod encryptionMethod opts.clientTicket opts.clientPadding
            opts.includeClientPadding mlkem768ClientKey DEFAULT_VLESS_RESUME }
    options := opts }

/-! Standard (not URL-safe) base64, modelling
`btoa(String.fromCharCode(...bytes))` on a `Uint8Array`. -/

/-- The standard base64 alphabet, as a character list. -/
def b64Alphabet : List Char :=
  ("ABCDEFGHIJKLMNOPQRSTUVWXYZabcdefghijklmnopqrstuvwxyz0123456789+/").data

/-- The character for a 6-bit group. -/
def b64Char (n : Nat) : Char :=
  b64Alphabet.getD n ('?')

/-- Inverse of `b64Char` on the alphabet. -/
def b64Index (c : Char) : Option Nat :=
  b64Alphabet.findIdx? (fun a => a == c)

/-- Standard base64 encoding of a byte list (with `=` padding), exactly as
`btoa` produces it. -/
def encodeB64 : List (Fin 256) → List Char
  | [] => []
  | [b1] =>
      [b64Char (b1.val / 4), b64Char (b1.val % 4 * 16), '=', '=']
  | [b1, b2] =>
      [b64Char (b1.val / 4), b64Char (b1.val % 4 * 16 + b2.val / 16),
       b64Char (b2.val % 16 * 4), '=']
  | b1 :: b2 :: b3 :: rest =>
      b64Char (b1.val / 4) :: b64Char (b1.val % 4 * 16 + b2.val / 16) ::
      b64Char (b2.val % 16 * 4 + b3.val / 64) :: b64Char (b3.val % 64) ::
      encodeB64 rest

/-- Standard base64 decoding back to the byte values (the reference decode
used to state the round-trip property). -/
def decodeB64 : List Char → Option (List Nat)
  | [] => some []
  | a :: b :: c :: d :: rest =>
      match b64Index a, b64Index b with
      | some va, some vb =>
          if c = '=' then
            if d = '=' ∧ rest = [] then some [va * 4 + vb / 16] else none
          else
            match b64Index c with
            | some vc =>
                if d = '=' then
                  if rest = [] then some [va * 4 + vb / 16, vb % 16 * 16 + vc / 4]
                  else none
                else
                  match b64Index d with
                  | some vd =>
                      (decodeB64 rest).map
                        (fun tl =>
                          (va * 4 + vb / 16) :: (vb % 16 * 16 + vc / 4) ::
                          (vc % 4 * 64 + vd) :: tl)
                  | none => none
            | none => none
      | _, _ => none
  | _ => none

/-! JSON model: `JSON.parse` and the inbound-tag extraction of
`debouncedConfigChange`. -/

/-- JSON values as produced by `JSON.parse` (numbers are kept as lexemes:
the extraction never reads a numeric value). -/
inductive JValue where
  | null
  | bool (b : Bool)
  | num (lexeme : String)
  | str (s : String)
  | arr (elems : List JValue)
  | obj (fields : List (String × JValue))

/-- JSON insignificant whitespace. -/
def isJsonWs (c : Char) : Bool :=
  c = ' ' || c = '\t' || c = '\n' || c = '\r'

/-- Skip insignificant whitespace. -/
def skipWs (l : List Char) : List Char :=
  l.dropWhile isJsonWs

/-- Hex digit value. -/
def hexVal (c : Char) : Option Nat :=
  if c.isDigit then some (c.toNat - 48)
  else if 'a' ≤ c ∧ c ≤ 'f' then some (c.toNat - 87)
  else if 'A' ≤ c ∧ c ≤ 'F' then some (c.toNat - 55)
  else none

/-- Single-character JSON string escapes. -/
def escChar : Char → Option Char
  | '"' => some ('"')
  | '\\' => some ('\\')
  | '/' => some ('/')
  | 'b' => some (Char.ofNat 8)
  | 'f' => some (Char.ofNat 12)
  | 'n' => some ('\n')
  | 'r' => some ('\r')
  | 't' => some ('\t')
  | _ => none

/-- Body of a JSON string literal, after the opening quote; returns the
decoded string and the input after the closing quote. -/
def parseStringBody : List Char → Option (String × List Char)
  | [] => none
  | '"' :: rest => some ("", rest)
  | '\\' :: 'u' :: h1 :: h2 :: h3 :: h4 :: rest =>
      (hexVal h1).bind fun d1 =>
        (hexVal h2).bind fun d2 =>
          (hexVal h3).bind fun d3 =>
            (hexVal h4).bind fun d4 =>
              (parseStringBody rest).map fun p =>
                (⟨Char.ofNat (((d1 * 16 + d2) * 16 + d3) * 16 + d4) :: p.1.data⟩, p.2)
  | '\\' :: e :: rest =>
      (escChar e).bind fun c =>
        (parseStringBody rest).map fun p => (⟨c :: p.1.data⟩, p.2)
  | c :: rest =>
      if c.toNat < 32 then none
      else (parseStringBody rest).map fun p => (⟨c :: p.1.data⟩, p.2)

/-- Exponent part of a JSON number lexeme (or nothing). -/
def numExpPart (acc : List Char) (l : List Char) : Option (List Char × List Char) :=
  match l with
  | e :: r =>
      if e = 'e' ∨ e = 'E' then
        match (match r with
               | '+' :: rr => (['+'], rr)
               | '-' :: rr => (['-'], rr)
               | _ => (([] : List Char), r)) with
        | (sgn, r2) =>
            match r2 with
            | c :: _ =>
                if c.isDigit then
                  some (acc ++ e :: sgn ++ r2.takeWhile Char.isDigit,
                        r2.dropWhile Char.isDigit)
                else none
            | [] => none
      else some (acc, l)
  | [] => some (acc, l)

/-- Fraction part of a JSON number lexeme (or nothing), then exponent. -/
def numFracPart (acc : List Char) (l : List Char) : Option (List Char × List Char) :=
  match l with
  | '.' :: r =>
      match r with
      | c :: _ =>
          if c.isDigit then
            numExpPart (acc ++ '.' :: r.takeWhile Char.isDigit) (r.dropWhile Char.isDigit)
          else none
      | [] => none
  | _ => numExpPart acc l

/-- A JSON number lexeme (strict JSON grammar), returned as its raw
characters. -/
def parseNumberLex (l : List Char) : Option (List Char × List Char) :=
  match (match l with
         | '-' :: r => (['-'], r)
         | _ => (([] : List Char), l)) with
  | (sgn, l1) =>
      match l1 with
      | '0' :: r => numFracPart (sgn ++ ['0']) r
      | c :: r =>
          if c.isDigit then
            numFracPart (sgn ++ c :: r.takeWhile Char.isDigit) (r.dropWhile Char.isDigit)
          else none
      | [] => none

/-- Parser mode: a single value, the tail of an array, or the tail of an
object. -/
inductive PMode where
  | value
  | elems
  | fields

/-- Parser intermediate result. -/
inductive PRes where
  | val (v : JValue)
  | elems (vs : List JValue)
  | fields (fs : List (String × JValue))

/-- Fuel-indexed recursive-descent JSON parser (the fuel strictly decreases
on every recursive call, so the definition is structural and kernel
reducible; `parseJson` supplies ample fuel). -/
def parseStep : Nat → PMode → List Char → Option (PRes × List Char)
  | 0, _, _ => none
  | Nat.succ fuel, PMode.value, l =>
      match skipWs l with
      | 'n' :: 'u' :: 'l' :: 'l' :: rest => some (PRes.val JValue.null, rest)
      | 't' :: 'r' :: 'u' :: 'e' :: rest => some (PRes.val (JValue.bool true), rest)
      | 'f' :: 'a' :: 'l' :: 's' :: 'e' :: rest => some (PRes.val (JValue.bool false), rest)
      | '"' :: rest =>
          (parseStringBody rest).map (fun p => (PRes.val (JValue.str p.1), p.2))
      | '[' :: rest =>
          (match skipWs rest with
           | ']' :: r => some (PRes.val (JValue.arr []), r)
           | _ =>
               (parseStep fuel PMode.elems rest).bind fun p =>
                 match p.1 with
                 | PRes.elems vs => some (PRes.val (JValue.arr vs), p.2)
                 | _ => none)
      | '{' :: rest =>
          (match skipWs rest with
           | '}' :: r => some (PRes.val (JValue.obj []), r)
           | _ =>
               (parseStep fuel PMode.fields rest).bind fun p =>
                 match p.1 with
                 | PRes.fields fs => some (PRes.val (JValue.obj fs), p.2)
                 | _ => none)
      | rest =>
          (parseNumberLex rest).map (fun p => (PRes.val (JValue.num ⟨p.1⟩), p.2))
  | Nat.succ fuel, PMode.elems, l =>
      (parseStep fuel PMode.value l).bind fun p =>
        match p.1 with
        | PRes.val v =>
            (match skipWs p.2 with
             | ',' :: r2 =>
                 (parseStep fuel PMode.elems r2).bind fun q =>
                   match q.1 with
                   | PRes.elems vs => some (PRes.elems (v :: vs), q.2)
                   | _ => none
             | ']' :: r2 => some (PRes.elems [v], r2)
             | _ => none)
        | _ => none
  | Nat.succ fuel, PMode.fields, l =>
      match skipWs l with
      | '"' :: rest =>
          (parseStringBody rest).bind fun kp =>
            match skipWs kp.2 with
            | ':' :: r2 =>
                (parseStep fuel PMode.value r2).bind fun p =>
                  match p.1 with
                  | PRes.val v =>
                      (match skipWs p.2 with
                       | ',' :: r4 =>
                           (parseStep fuel PMode.fields r4).bind fun q =>
                             match q.1 with
                             | PRes.fields fs => some (PRes.fields ((kp.1, v) :: fs), q.2)
                             | _ => none
                       | '}' :: r4 => some (PRes.fields [(kp.1, v)], r4)
                       | _ => none)
                  | _ => none
            | _ => none
      | _ => none

/-- `JSON.parse`: parse one value and require only whitespace after it. -/
def parseJson (text : String) : Option JValue :=
  match parseStep (2 * text.data.length + 2) PMode.value text.data with
  | some (PRes.val v, rest) => if skipWs rest = [] then some v else none
  | _ => none

/-- JavaScript object field lookup on a parsed JSON object: `JSON.parse`
keeps the last occurrence of a duplicated key. -/
def lookupLast (fields : List (String × JValue)) (name : String) : Option JValue :=
  fields.foldl (fun acc kv => if kv.1 = name then some kv.2 else acc) none

/-- JavaScript property access `v.name` on a parsed value: throws
(`Except.error`) on `null`, yields `undefined` (`none`) on primitives and
arrays, and looks the field up on objects. -/
def jsPropAccess : JValue → String → Except Unit (Option JValue)
  | JValue.null, _ => Except.error ()
  | JValue.obj fields, name => Except.ok (lookupLast fields name)
  | _, _ => Except.ok none

/-- Per-element tag selection of `debouncedConfigChange`'s `filter`/`map`
pair on a non-`null` element: `inbound.tag` when
`typeof inbound.tag === 'string' && inbound.tag.trim() !== ''` (property
access on a primitive yields `undefined`, which is not a string). -/
def tagOfKeep : JValue → Option String
  | JValue.obj fields =>
      match lookupLast fields ("tag") with
      | some (JValue.str t) => if jsTrim t = "" then none else some t
      | _ => none
  | _ => none

/-- The `filter`/`map` body of `debouncedConfigChange` over the `inbounds`
elements: keep `inbound.tag` per `tagOfKeep`; accessing `.tag` on a `null`
element throws. -/
def collectTags : List JValue → Except Unit (List String)
  | [] => Except.ok []
  | JValue.null :: _ => Except.error ()
  | e :: rest =>
      (collectTags rest).map fun restTags =>
        match tagOfKeep e with
        | some t => t :: restTags
        | none => restTags

/-- The inbound-tag extraction of `debouncedConfigChange`: parse the text,
read `parsedConfig.inbounds`, and if it is an array collect the tags; any
thrown error is caught and yields the empty list. -/
def extract_inbound_tags (text : String) : List String :=
  match parseJson text with
  | none => []
  | some parsed =>
      match jsPropAccess parsed ("inbounds") with
      | Except.error _ => []
      | Except.ok inb =>
          match inb with
          | some (JValue.arr xs) =>
              match collectTags xs with
              | Except.error _ => []
              | Except.ok tags => tags
          | _ => []

/-- The `inbounds` array of a parsed document, when present with the right
type. -/
def inboundsArrOf : JValue → Option (List JValue)
  | JValue.obj fields =>
      match lookupLast fields ("inbounds") with
      | some (JValue.arr xs) => some xs
      | _ => none
  | _ => none

/-- Whether some element of the array is JSON `null`. -/
def hasNullElem : List JValue → Bool
  | [] => false
  | JValue.null :: _ => true
  | _ :: rest => hasNullElem rest

/-- Tag selection following the claim's words literally: every element
whose tag is a non-empty string (no trimming, no exception on `null`
elements).  Stated for comparison with the code's behavior. -/
def specTagOf : JValue → Option String
  | JValue.obj fields =>
      match lookupLast fields ("tag") with
      | some (JValue.str t) => if t = "" then none else some t
      | _ => none
  | _ => none

/-- Inbound-tag extraction following the claim's words literally: collect
`specTagOf` over the `inbounds` array, empty on parse failure or a
missing/mismatched field. -/
def extractInboundTagsClaim (text : String) : List String :=
  match parseJson text with
  | none => []
  | some parsed =>
      match inboundsArrOf parsed with
      | some xs => xs.filterMap specTagOf
      | none => []

/-! The component's generation state machine.  React `useState` fields
become record fields; each handler becomes a state-transition function.
The outcome of each fallible platform call (CSPRNG, key derivation) is an
explicit `Except` parameter: `Except.ok` is a successful draw/derivation,
`Except.error` a thrown exception, so `try`/`catch`/`finally` becomes a
match on that parameter and the handlers are total functions (no exception
escapes the generation boundary).  Each kind also carries an
instrumentation counter counting how often its underlying generation
algorithm was invoked, for the cache-behavior properties. -/

/-- One entry of `SHADOWSOCKS_ENCRYPTION_METHODS`. -/
structure ShadowsocksMethod where
  value : String
  label : String
  length : Nat
deriving DecidableEq

/-- The enumerated Shadowsocks 2022 cipher methods, verbatim from the
source. -/
def SHADOWSOCKS_ENCRYPTION_METHODS : List ShadowsocksMethod :=
  [⟨"2022-blake3-aes-128-gcm", "2022-blake3-aes-128-gcm", 16⟩,
   ⟨"2022-blake3-aes-256-gcm", "2022-blake3-aes-256-gcm", 32⟩]

/-- A generated X25519 key pair, already encoded for display. -/
structure KeyPairV where
  publicKey : String
  privateKey : String
deriving DecidableEq

/-- A generated Shadowsocks credential. -/
structure ShadowsocksCredential where
  password : String
  encryptionMethod : String
deriving DecidableEq

/-- A generated ML-DSA-65 result (seed and verification key). -/
structure Mldsa65Result where
  seed : String
  verify : String
deriving DecidableEq

/-- The five credential kinds of the subsystem. -/
inductive CredKind where
  | keyPair
  | shortId
  | shadowsocksPassword
  | mldsa65
  | vlessEncryption
deriving DecidableEq

/-- The payload of the results dialog (`resultType` plus `resultData`). -/
inductive ResultPayload where
  | keyPair (v : KeyPairV)
  | shortId (v : String)
  | shadowsocksPassword (v : ShadowsocksCredential)
  | mldsa65 (v : Mldsa65Result)
  | vlessEncryption (v : VlessResult)
deriving DecidableEq

/-- A user-visible toast notification, tagged with the credential kind it
reports on. -/
inductive Toast where
  | success (k : CredKind)
  | error (k : CredKind)
deriving DecidableEq

/-- The modelled component state (the `useState` fields the generation
subsystem touches), plus the per-kind generation counters. -/
structure GenState where
  generatedKeyPair : Option KeyPairV
  generatedShortId : Option String
  generatedShadowsocksPassword : Option ShadowsocksCredential
  generatedMldsa65 : Option Mldsa65Result
  generatedVLESS : Option VlessResult
  isResultsDialogOpen : Bool
  resultPayload : Option ResultPayload
  isVlessAdvancedModalOpen : Bool
  selectedVlessVariant : String
  vlessOptions : VlessBuilderOptions
  selectedEncryptionMethod : String
  isGeneratingKeyPair : Bool
  isGeneratingShortId : Bool
  isGeneratingShadowsocksPassword : Bool
  isGeneratingMldsa65 : Bool
  isGeneratingVLESSEncryption : Bool
  isEditorFullscreen : Bool
  isEditorReady : Bool
  validationIsValid : Bool
  toasts : List Toast
  countKeyPair : Nat
  countShortId : Nat
  countShadowsocksPassword : Nat
  countMldsa65 : Nat
  countVLESS : Nat
deriving DecidableEq

/-- `showResultDialog(type, data)`. -/
def showResultDialog (st : GenState) (p : ResultPayload) : GenState :=
  { st with resultPayload := some p, isResultsDialogOpen := true }

/-- `generatePrivateAndPublicKey`: on success store and show the formatted
pair and toast success; on a thrown error toast failure; either way the
in-progress flag ends cleared. -/
def generatePrivateAndPublicKey (st : GenState) (outcome : Except Unit KeyPairV) : GenState :=
  match outcome with
  | Except.ok kp =>
      { st with isGeneratingKeyPair := false
                generatedKeyPair := some kp
                isResultsDialogOpen := true
                resultPayload := some (ResultPayload.keyPair kp)
                toasts := st.toasts ++ [Toast.success CredKind.keyPair]
                countKeyPair := st.countKeyPair + 1 }
  | Except.error _ =>
      { st with isGeneratingKeyPair := false
                toasts := st.toasts ++ [Toast.error CredKind.keyPair]
                countKeyPair := st.countKeyPair + 1 }

/-- `generateShortId` (the produced hex string is the outcome value). -/
def generateShortId (st : GenState) (outcome : Except Unit String) : GenState :=
  match outcome with
  | Except.ok sid =>
      { st with isGeneratingShortId := false
                generatedShortId := some sid
                isResultsDialogOpen := true
                resultPayload := some (ResultPayload.shortId sid)
                toasts := st.toasts ++ [Toast.success CredKind.shortId]
                countShortId := st.countShortId + 1 }
  | Except.error _ =>
      { st with isGeneratingShortId := false
                toasts := st.toasts ++ [Toast.error CredKind.shortId]
                countShortId := st.countShortId + 1 }

/-- `generateShadowsocksPassword(value)`: look the method up; if absent,
return silently (the `finally` still clears the flag); otherwise draw
`method.length` bytes from the random source and store their standard
base64 encoding with the method label. -/
def generateShadowsocksPassword (st : GenState) (value : String)
    (crypt : Except Unit (Nat → Fin 256)) : GenState :=
  match SHADOWSOCKS_ENCRYPTION_METHODS.find? (fun m => m.value == value) with
  | none => { st with isGeneratingShadowsocksPassword := false }
  | some method =>
      match crypt with
      | Except.ok rnd =>
          let password : String := ⟨encodeB64 ((List.range method.length).map rnd)⟩
          let res : ShadowsocksCredential := ⟨password, method.label⟩
          { st with isGeneratingShadowsocksPassword := false
                    generatedShadowsocksPassword := some res
                    isResultsDialogOpen := true
                    resultPayload := some (ResultPayload.shadowsocksPassword res)
                    toasts := st.toasts ++ [Toast.success CredKind.shadowsocksPassword]
                    countShadowsocksPassword := st.countShadowsocksPassword + 1 }
      | Except.error _ =>
          { st with isGeneratingShadowsocksPassword := false
                    toasts := st.toasts ++ [Toast.error CredKind.shadowsocksPassword]
                    countShadowsocksPassword := st.countShadowsocksPassword + 1 }

/-- `handleGenerateMldsa65` (the derived seed/verify pair is the outcome
value of the external `generateMldsa65` utility). -/
def handleGenerateMldsa65 (st : GenState) (outcome : Except Unit Mldsa65Result) : GenState :=
  match outcome with
  | Except.ok r =>
      { st with isGeneratingMldsa65 := false
                generatedMldsa65 := some r
                isResultsDialogOpen := true
                resultPayload := some (ResultPayload.mldsa65 r)
                toasts := st.toasts ++ [Toast.success CredKind.mldsa65]
                countMldsa65 := st.countMldsa65 + 1 }
  | Except.error _ =>
      { st with isGeneratingMldsa65 := false
                toasts := st.toasts ++ [Toast.error CredKind.mldsa65]
                countMldsa65 := st.countMldsa65 + 1 }

/-- `generateVLESSEncryption`: the outcome carries the four freshly encoded
key tokens (x25519 server/client, ML-KEM-768 server/client); the role
strings are built from the single shared `vlessOptions` of the state. -/
def generateVLESSEncryption (st : GenState)
    (keys : Except Unit (String × String × String × String)) : GenState :=
  match keys with
  | Except.ok (xs, xc, ms, mc) =>
      let res := generateVLESSEncryptionPure st.vlessOptions xs xc ms mc
      { st with isGeneratingVLESSEncryption := false
                generatedVLESS := some res
                isResultsDialogOpen := true
                resultPayload := some (ResultPayload.vlessEncryption res)
                toasts := st.toasts ++ [Toast.success CredKind.vlessEncryption]
                countVLESS := st.countVLESS + 1 }
  | Except.error _ =>
      { st with isGeneratingVLESSEncryption := false
                toasts := st.toasts ++ [Toast.error CredKind.vlessEncryption]
                countVLESS := st.countVLESS + 1 }

/-- `viewKeyPair`: show the cached value, otherwise generate. -/
def viewKeyPair (st : GenState) (o : Except Unit KeyPairV) : GenState :=
  match st.generatedKeyPair with
  | some v => showResultDialog st (ResultPayload.keyPair v)
  | none => generatePrivateAndPublicKey st o

/-- `viewShortId`. -/
def viewShortId (st : GenState) (o : Except Unit String) : GenState :=
  match st.generatedShortId with
  | some v => showResultDialog st (ResultPayload.shortId v)
  | none => generateShortId st o

/-- `viewShadowsocksPassword` (generation uses the currently selected
method). -/
def viewShadowsocksPassword (st : GenState) (crypt : Except Unit (Nat → Fin 256)) : GenState :=
  match st.generatedShadowsocksPassword with
  | some v => showResultDialog st (ResultPayload.shadowsocksPassword v)
  | none => generateShadowsocksPassword st st.selectedEncryptionMethod crypt

/-- `viewMldsa65`. -/
def viewMldsa65 (st : GenState) (o : Except Unit Mldsa65Result) : GenState :=
  match st.generatedMldsa65 with
  | some v => showResultDialog st (ResultPayload.mldsa65 v)
  | none => handleGenerateMldsa65 st o

/-- `viewVLESS`: show the cached value, otherwise open the advanced builder
dialog (no generation happens until its generate button is pressed). -/
def viewVLESS (st : GenState) : GenState :=
  match st.generatedVLESS with
  | some v => showResultDialog st (ResultPayload.vlessEncryption v)
  | none => { st with isVlessAdvancedModalOpen := true }

/-- The outcomes of the platform calls each kind's generator would make,
bundled for the result dialog's regenerate button. -/
structure GenOracles where
  keyPair : Except Unit KeyPairV
  shortId : Except Unit String
  crypt : Except Unit (Nat → Fin 256)
  mldsa : Except Unit Mldsa65Result
  vlessKeys : Except Unit (String × String × String × String)

/-- The result dialog's regenerate button (`renderResultDialog`): the four
direct kinds call their generators; the VLESS kind opens the advanced
builder dialog and closes the results dialog instead. -/
def regenerate (st : GenState) (k : CredKind) (o : GenOracles) : GenState :=
  match k with
  | CredKind.keyPair => generatePrivateAndPublicKey st o.keyPair
  | CredKind.shortId => generateShortId st o.shortId
  | CredKind.shadowsocksPassword =>
      generateShadowsocksPassword st st.selectedEncryptionMethod o.crypt
  | CredKind.mldsa65 => handleGenerateMldsa65 st o.mldsa
  | CredKind.vlessEncryption =>
      { st with isVlessAdvancedModalOpen := true, isResultsDialogOpen := false }

/-- The dialog-close cleanup effect (`useEffect` on `!isDialogOpen`): reset
the dialog-local UI state; the generated credential caches are deliberately
not touched (source comment: keep them for reuse). -/
def dialogCloseCleanup (st : GenState) : GenState :=
  { st with isEditorFullscreen := false
            isResultsDialogOpen := false
            resultPayload := none
            selectedVlessVariant := "x25519"
            vlessOptions := createDefaultVlessOptions
            validationIsValid := true
            isEditorReady := false }

/-- The component's initial state. -/
def initialGenState : GenState :=
  { generatedKeyPair := none
    generatedShortId := none
    generatedShadowsocksPassword := none
    generatedMldsa65 := none
    generatedVLESS := none
    isResultsDialogOpen := false
    resultPayload := none
    isVlessAdvancedModalOpen := false
    selectedVlessVariant := "x25519"
    vlessOptions := createDefaultVlessOptions
    selectedEncryptionMethod := (SHADOWSOCKS_ENCRYPTION_METHODS.get ⟨0, by decide⟩).value
    isGeneratingKeyPair := false
    isGeneratingShortId := false
    isGeneratingShadowsocksPassword := false
    isGeneratingMldsa65 := false
    isGeneratingVLESSEncryption := false
    isEditorFullscreen := false
    isEditorReady := false
    validationIsValid := true
    toasts := []
    countKeyPair := 0
    countShortId := 0
    countShadowsocksPassword := 0
    countMldsa65 := 0
    countVLESS := 0 }

/-- A concrete state in which every credential kind has a cached value. -/
def cachedState : GenState :=
  { initialGenState with
      generatedKeyPair := some ⟨"PUB", "PRIV"⟩
      generatedShortId := some ("00ff00ff00ff00ff")
      generatedShadowsocksPassword := some ⟨"PW", "2022-blake3-aes-128-gcm"⟩
      generatedMldsa65 := some ⟨"SEED", "VERIFY"⟩
      generatedVLESS :=
        some (generateVLESSEncryptionPure createDefaultVlessOptions ("XS") ("XC") ("MS") ("MC")) }

/-- Concrete successful oracles producing values distinct from those cached
in `cachedState`. -/
def sampleOracles : GenOracles :=
  { keyPair := Except.ok ⟨"PUB2", "PRIV2"⟩
    shortId := Except.ok ("1111111111111111")
    crypt := Except.ok (fun _ => (0 : Fin 256))
    mldsa := Except.ok ⟨"SEED2", "VERIFY2"⟩
    vlessKeys := Except.ok ("XS2", "XC2", "MS2", "MC2") }

/-- Apply a function to the last element of a list. -/
def mapLast {α : Type} (f : α → α) : List α → List α
  | [] => []
  | [a] => [f a]
  | a :: rest => a :: mapLast f rest

/-- The option-derived (token-independent) segment list of the client-role
`encryption` string, shared by both key-agreement variants. -/
def clientSegments (opts : VlessBuilderOptions) : List String :=
  normalizeOption (some opts.handshakeMethod) DEFAULT_VLESS_HANDSHAKE ::
  normalizeOption (some opts.encryptionMethod) DEFAULT_VLESS_ENCRYPTION ::
  normalizeOption (some opts.clientTicket) DEFAULT_VLESS_RESUME ::
  (if opts.includeClientPadding then
    sanitizeSegments (normalizeOption (some opts.clientPadding) DEFAULT_VLESS_PADDING)
  else [])

/-- The option-derived (token-independent) segment list of the server-role
`decryption` string, shared by both key-agreement variants. -/
def serverSegments (opts : VlessBuilderOptions) : List String :=
  normalizeOption (some opts.handshakeMethod) DEFAULT_VLESS_HANDSHAKE ::
  normalizeOption (some opts.encryptionMethod) DEFAULT_VLESS_ENCRYPTION ::
  normalizeOption (some opts.serverTicket) DEFAULT_VLESS_SERVER_TICKET ::
  (if opts.includeServerPadding then
    sanitizeSegments (normalizeOption (some opts.serverPadding) DEFAULT_VLESS_PADDING)
  else [])

/-- The padding pieces as the claim words them: take the padding string (or
the default padding string if empty), split on `'.'`, trim each piece, drop
empty pieces. -/
def paddingPiecesSpec (p : String) : List String :=
  sanitizeSegments (if jsTrim p = "" then DEFAULT_VLESS_PADDING else p)

/-! Helper lemmas: string append cancellation and `join('.')`. -/

theorem string_append_cancel_right (x y z : String) : x ++ z = y ++ z ↔ x = y := by
  constructor
  · intro h
    have hd := congrArg String.data h
    rw [String.data_append, String.data_append] at hd
    exact String.ext (List.append_cancel_right hd)
  · intro h
    rw [h]

theorem jsJoinDot_cons_append (x : String) (l : List String) (a : String) :
    jsJoinDot ((x :: l) ++ [a]) = jsJoinDot (x :: l) ++ "." ++ a := by
  induction l generalizing x with
  | nil => rfl
  | cons y t ih =>
      show x ++ "." ++ jsJoinDot ((y :: t) ++ [a]) = x ++ "." ++ jsJoinDot (y :: t) ++ "." ++ a
      rw [ih y]
      simp [String.append_assoc]

theorem jsJoinDot_snoc_cancel (x y : String) (l l2 : List String) (a : String) :
    jsJoinDot ((x :: l) ++ [a]) = jsJoinDot ((y :: l2) ++ [a]) ↔
      jsJoinDot (x :: l) = jsJoinDot (y :: l2) := by
  rw [jsJoinDot_cons_append, jsJoinDot_cons_append, String.append_assoc, String.append_assoc,
    string_append_cancel_right]

/-! Helper lemmas: trimming and splitting. -/

theorem dropWhile_self_idem {α : Type} (p : α → Bool) (l : List α) :
    (l.dropWhile p).dropWhile p = l.dropWhile p := by
  induction l with
  | nil => rfl
  | cons c t ih =>
      by_cases h : p c
      · simp [List.dropWhile_cons, h, ih]
      · simp [List.dropWhile_cons, h]

theorem jsTrimL_dropWhile_ws (x : List Char) :
    jsTrimL (x.dropWhile jsWhitespace) = jsTrimL x := by
  simp [jsTrimL, dropWhile_self_idem]

theorem jsTrimL_snoc_ws (g : List Char) (c : Char) (hc : jsWhitespace c = true) :
    jsTrimL (g ++ [c]) = jsTrimL g := by
  unfold jsTrimL
  rw [List.dropWhile_append]
  cases hx : g.dropWhile jsWhitespace with
  | nil => simp [hx, List.dropWhile_cons, hc]
  | cons a t => simp [hx, List.reverse_append, List.dropWhile_cons, hc]

theorem splitDotP_dropWhile_ws (l : List Char) :
    splitDotP (l.dropWhile jsWhitespace) =
      ((splitDotP l).1.dropWhile jsWhitespace, (splitDotP l).2) := by
  induction l with
  | nil => rfl
  | cons c t ih =>
      by_cases h : jsWhitespace c
      · have hne : ¬(c = '.') := by
          intro hc
          subst hc
          exact absurd h (by decide)
        rw [List.dropWhile_cons, if_pos h, ih]
        simp [splitDotP, hne, List.dropWhile_cons, h]
      · by_cases hc : c = '.'
        · subst hc
          simp [splitDotP, List.dropWhile_cons, h]
        · simp [splitDotP, hc, List.dropWhile_cons, h]

theorem mapLast_cons_cons {α : Type} (f : α → α) (a b : α) (t : List α) :
    mapLast f (a :: b :: t) = a :: mapLast f (b :: t) := rfl

theorem map_mapLast {α β : Type} (f : α → β) (h : α → α) (hyp : ∀ a, f (h a) = f a)
    (l : List α) : (mapLast h l).map f = l.map f := by
  induction l with
  | nil => rfl
  | cons a t ih =>
      cases t with
      | nil => simp [mapLast, hyp]
      | cons b t2 =>
          rw [mapLast_cons_cons]
          simp only [List.map_cons]
          rw [ih]
          simp

theorem splitDotP_append_single (xs : List Char) (c : Char) :
    splitDotP (xs ++ [c]) =
      if c = '.' then ((splitDotP xs).1, (splitDotP xs).2 ++ [[]])
      else
        match (splitDotP xs).2 with
        | [] => ((splitDotP xs).1 ++ [c], [])
        | _ :: _ => ((splitDotP xs).1, mapLast (fun g => g ++ [c]) (splitDotP xs).2) := by
  induction xs with
  | nil =>
      by_cases hc : c = '.' <;> simp [splitDotP, hc]
  | cons d xs ih =>
      by_cases hc : c = '.'
      · subst hc
        by_cases hd : d = '.' <;> simp [List.cons_append, splitDotP, hd, ih]
      · rcases hp : (splitDotP xs).2 with _ | ⟨x, t⟩ <;> by_cases hd : d = '.' <;>
          simp [List.cons_append, splitDotP, hc, hd, ih, hp, mapLast]

theorem splitDot_snoc_of_ne_dot (xs : List Char) (c : Char) (hc : ¬(c = '.')) :
    splitDot (xs ++ [c]) = mapLast (fun g => g ++ [c]) (splitDot xs) := by
  unfold splitDot
  rw [splitDotP_append_single]
  rcases hp : (splitDotP xs).2 with _ | ⟨x, t⟩ <;> simp [hc, hp, mapLast]

theorem sanitizeSegments_eq_general (s : String) :
    sanitizeSegments s =
      ((splitDot s.data).map (fun g => String.mk (jsTrimL g))).filter
        (fun seg => decide (seg.length > 0)) := by
  unfold sanitizeSegments jsSplitDot
  rw [List.map_map]
  rfl

theorem sanitizeSegments_dropWhile_ws (l : List Char) :
    sanitizeSegments ⟨l.dropWhile jsWhitespace⟩ = sanitizeSegments ⟨l⟩ := by
  rw [sanitizeSegments_eq_general, sanitizeSegments_eq_general]
  show ((splitDot (l.dropWhile jsWhitespace)).map _).filter _ = _
  unfold splitDot
  rw [splitDotP_dropWhile_ws]
  simp [jsTrimL_dropWhile_ws]

theorem sanitizeSegments_snoc_ws (xs : List Char) (c : Char) (hc : jsWhitespace c = true) :
    sanitizeSegments ⟨xs ++ [c]⟩ = sanitizeSegments ⟨xs⟩ := by
  have hcd : ¬(c = '.') := by
    intro h
    subst h
    exact absurd hc (by decide)
  rw [sanitizeSegments_eq_general, sanitizeSegments_eq_general]
  show ((splitDot (xs ++ [c])).map _).filter _ = _
  rw [splitDot_snoc_of_ne_dot xs c hcd]
  rw [map_mapLast _ _ (fun g => by rw [jsTrimL_snoc_ws g c hc])]

theorem sanitizeSegments_backTrim (l : List Char) :
    sanitizeSegments ⟨(l.reverse.dropWhile jsWhitespace).reverse⟩ = sanitizeSegments ⟨l⟩ := by
  induction l using List.reverseRecOn with
  | nil => rfl
  | append_singleton xs c ih =>
      by_cases hc : jsWhitespace c
      · rw [List.reverse_append, List.reverse_singleton, List.singleton_append,
          List.dropWhile_cons, if_pos hc, sanitizeSegments_snoc_ws xs c hc]
        exact ih
      · rw [List.reverse_append, List.reverse_singleton, List.singleton_append,
          List.dropWhile_cons, if_neg hc]
        simp

theorem sanitizeSegments_jsTrim (p : String) :
    sanitizeSegments (jsTrim p) = sanitizeSegments p := by
  show sanitizeSegments ⟨jsTrimL p.data⟩ = _
  unfold jsTrimL
  rw [sanitizeSegments_backTrim, sanitizeSegments_dropWhile_ws]

theorem string_length_pos_iff (s : String) : 0 < s.length ↔ ¬(s = "") := by
  cases s with
  | mk d =>
      cases d with
      | nil => simp [String.length, String.ext_iff]
      | cons a t => simp [String.length, String.ext_iff]

theorem sanitize_normalize_eq_spec (p : String) :
    sanitizeSegments (normalizeOption (some p) DEFAULT_VLESS_PADDING) = paddingPiecesSpec p := by
  simp only [normalizeOption, paddingPiecesSpec]
  by_cases hp : p = ""
  · subst hp
    have h0 : jsTrim ("") = "" := by decide
    simp [h0]
  · rw [if_neg hp]
    by_cases hl : (jsTrim p).length > 0
    · rw [if_pos hl]
      have hne : ¬(jsTrim p = "") := (string_length_pos_iff _).mp hl
      rw [if_neg hne, sanitizeSegments_jsTrim]
    · rw [if_neg hl]
      have heq : jsTrim p = "" := by
        by_contra h
        exact hl ((string_length_pos_iff _).mpr h)
      rw [if_pos heq]

/-! Helper lemmas: the base64 round trip. -/

theorem b64Index_b64Char_fin : ∀ v : Fin 64, b64Index (b64Char v.val) = some v.val := by
  decide

theorem b64Char_ne_pad_fin : ∀ v : Fin 64, ¬(b64Char v.val = '=') := by
  decide

theorem b64Index_b64Char_of_lt (n : Nat) (hn : n < 64) : b64Index (b64Char n) = some n :=
  b64Index_b64Char_fin ⟨n, hn⟩

theorem b64Char_ne_pad_of_lt (n : Nat) (hn : n < 64) : ¬(b64Char n = '=') :=
  b64Char_ne_pad_fin ⟨n, hn⟩

theorem decodeB64_encodeB64 :
    ∀ bs : List (Fin 256), decodeB64 (encodeB64 bs) = some (bs.map Fin.val)
  | [] => rfl
  | [b1] => by
      have h1 : b1.val < 256 := b1.isLt
      have ha : b64Index (b64Char (b1.val / 4)) = some (b1.val / 4) :=
        b64Index_b64Char_of_lt _ (by omega)
      have hb : b64Index (b64Char (b1.val % 4 * 16)) = some (b1.val % 4 * 16) :=
        b64Index_b64Char_of_lt _ (by omega)
      simp only [encodeB64, decodeB64, ha, hb]
      simp
      omega
  | [b1, b2] => by
      have h1 : b1.val < 256 := b1.isLt
      have h2 : b2.val < 256 := b2.isLt
      have ha : b64Index (b64Char (b1.val / 4)) = some (b1.val / 4) :=
        b64Index_b64Char_of_lt _ (by omega)
      have hb : b64Index (b64Char (b1.val % 4 * 16 + b2.val / 16)) =
          some (b1.val % 4 * 16 + b2.val / 16) :=
        b64Index_b64Char_of_lt _ (by omega)
      have hcn : ¬(b64Char (b2.val % 16 * 4) = '=') := b64Char_ne_pad_of_lt _ (by omega)
      have hc : b64Index (b64Char (b2.val % 16 * 4)) = some (b2.val % 16 * 4) :=
        b64Index_b64Char_of_lt _ (by omega)
      simp only [encodeB64, decodeB64, ha, hb, hc, hcn]
      simp [hcn]
      omega
  | b1 :: b2 :: b3 :: rest => by
      have h1 : b1.val < 256 := b1.isLt
      have h2 : b2.val < 256 := b2.isLt
      have h3 : b3.val < 256 := b3.isLt
      have ih := decodeB64_encodeB64 rest
      have ha : b64Index (b64Char (b1.val / 4)) = some (b1.val / 4) :=
        b64Index_b64Char_of_lt _ (by omega)
      have hb : b64Index (b64Char (b1.val % 4 * 16 + b2.val / 16)) =
          some (b1.val % 4 * 16 + b2.val / 16) :=
        b64Index_b64Char_of_lt _ (by omega)
      have hcn : ¬(b64Char (b2.val % 16 * 4 + b3.val / 64) = '=') :=
        b64Char_ne_pad_of_lt _ (by omega)
      have hc : b64Index (b64Char (b2.val % 16 * 4 + b3.val / 64)) =
          some (b2.val % 16 * 4 + b3.val / 64) :=
        b64Index_b64Char_of_lt _ (by omega)
      have hdn : ¬(b64Char (b3.val % 64) = '=') := b64Char_ne_pad_of_lt _ (by omega)
      have hd : b64Index (b64Char (b3.val % 64)) = some (b3.val % 64) :=
        b64Index_b64Char_of_lt _ (by omega)
      cases rest with
      | nil =>
          simp only [encodeB64, decodeB64, ha, hb, hc, hd]
          simp [hcn, hdn]
          omega
      | cons b4 rest2 =>
          simp only [encodeB64] at ih ⊢
          simp only [decodeB64, ha, hb, hc, hd]
          simp only [ih]
          simp [hcn, hdn]
          omega

/-! Helper lemmas: the inbound-tag extraction pipeline. -/

theorem collectTags_eq (xs : List JValue) :
    collectTags xs =
      if hasNullElem xs then Except.error () else Except.ok (xs.filterMap tagOfKeep) := by
  induction xs with
  | nil => rfl
  | cons e rest ih =>
      cases e with
      | null => simp [collectTags, hasNullElem]
      | bool b =>
          cases h : hasNullElem rest <;>
            simp [collectTags, hasNullElem, ih, h, List.filterMap_cons, tagOfKeep, Except.map]
      | num s =>
          cases h : hasNullElem rest <;>
            simp [collectTags, hasNullElem, ih, h, List.filterMap_cons, tagOfKeep, Except.map]
      | str s =>
          cases h : hasNullElem rest <;>
            simp [collectTags, hasNullElem, ih, h, List.filterMap_cons, tagOfKeep, Except.map]
      | arr a =>
          cases h : hasNullElem rest <;>
            simp [collectTags, hasNullElem, ih, h, List.filterMap_cons, tagOfKeep, Except.map]
      | obj fields =>
          cases h : hasNullElem rest <;>
            rcases hk : tagOfKeep (JValue.obj fields) with _ | t <;>
              simp [collectTags, hasNullElem, ih, h, hk, List.filterMap_cons, Except.map]

theorem extract_inbound_tags_characterization (text : String) :
    extract_inbound_tags text =
      match parseJson text with
      | none => []
      | some v =>
          match inboundsArrOf v with
          | none => []
          | some xs => if hasNullElem xs then [] else xs.filterMap tagOfKeep := by
  unfold extract_inbound_tags
  cases hp : parseJson text with
  | none => rfl
  | some v =>
      cases v with
      | null => simp [jsPropAccess, inboundsArrOf]
      | bool b => simp [jsPropAccess, inboundsArrOf]
      | num s => simp [jsPropAccess, inboundsArrOf]
      | str s => simp [jsPropAccess, inboundsArrOf]
      | arr a => simp [jsPropAccess, inboundsArrOf]
      | obj fields =>
          simp only [jsPropAccess, inboundsArrOf]
          rcases hl : lookupLast fields ("inbounds") with _ | w
          · simp
          · cases w with
            | arr xs =>
                have hc := collectTags_eq xs
                cases hN : hasNullElem xs <;> simp [hc, hN]
            | null => simp
            | bool b => simp
            | num s => simp
            | str s => simp
            | obj f2 => simp

/-! Helper lemmas: decomposing the encoder's output into its segment
lists. -/

theorem buildConfig_eq_join (h e t p : String) (inc : Bool) (auth fb : String) :
    buildConfig h e t p inc auth fb =
      jsJoinDot ((h :: e :: normalizeOption (some t) fb ::
        (if inc then sanitizeSegments (normalizeOption (some p) DEFAULT_VLESS_PADDING)
         else [])) ++ [auth]) := rfl

theorem genVless_x25519_encryption (opts : VlessBuilderOptions) (xs xc ms mc : String) :
    (generateVLESSEncryptionPure opts xs xc ms mc).x25519.encryption =
      jsJoinDot (clientSegments opts ++ [xc]) := rfl

theorem genVless_mlkem768_encryption (opts : VlessBuilderOptions) (xs xc ms mc : String) :
    (generateVLESSEncryptionPure opts xs xc ms mc).mlkem768.encryption =
      jsJoinDot (clientSegments opts ++ [mc]) := rfl

theorem genVless_x25519_decryption (opts : VlessBuilderOptions) (xs xc ms mc : String) :
    (generateVLESSEncryptionPure opts xs xc ms mc).x25519.decryption =
      jsJoinDot (serverSegments opts ++ [xs]) := rfl

theorem genVless_mlkem768_decryption (opts : VlessBuilderOptions) (xs xc ms mc : String) :
    (generateVLESSEncryptionPure opts xs xc ms mc).mlkem768.decryption =
      jsJoinDot (serverSegments opts ++ [ms]) := rfl

theorem jsJoinDot_append_cancel (l1 l2 : List String) (h1 : l1 ≠ []) (h2 : l2 ≠ [])
    (a : String) :
    (jsJoinDot (l1 ++ [a]) = jsJoinDot (l2 ++ [a])) ↔ jsJoinDot l1 = jsJoinDot l2 := by
  cases l1 with
  | nil => exact absurd rfl h1
  | cons x t1 =>
      cases l2 with
      | nil => exact absurd rfl h2
      | cons y t2 => exact jsJoinDot_snoc_cancel x y t1 t2 a

/-- C2: with `handshakeMethod="mlkem768x25519plus"`, `encryptionMethod="native"`,
`serverTicket="600s"`, `includeServerPadding=false` and server auth token
`"ABC"`, the server-role (decryption) output equals
`"mlkem768x25519plus.native.600s.ABC"` — the ordered segments
`[handshake, encryption, ticket, token]` joined with `'.'` — for both
key-agreement variants and regardless of the remaining options. -/
theorem C2_server_decryption_example :
    ∀ (ct sp cp : String) (icp : Bool) (xc ms mc : String),
      (generateVLESSEncryptionPure
          ⟨"mlkem768x25519plus", "native", "600s", ct, sp, cp, false, icp⟩
          ("ABC") xc ms mc).x25519.decryption = "mlkem768x25519plus.native.600s.ABC" ∧
      (generateVLESSEncryptionPure
          ⟨"mlkem768x25519plus", "native", "600s", ct, sp, cp, false, icp⟩
          xc ms ("ABC") mc).mlkem768.decryption = "mlkem768x25519plus.native.600s.ABC" ∧
      (generateVLESSEncryptionPure
          ⟨"mlkem768x25519plus", "native", "600s", ct, sp, cp, false, icp⟩
          ("ABC") xc ms mc).x25519.decryption =
        jsJoinDot ["mlkem768x25519plus", "native", "600s", "ABC"] :=
  fun _ _ _ _ _ _ _ => ⟨rfl, rfl, rfl⟩

/-- C3: with the padding inclusion flag set, the encoder inserts, between
the ticket segment and the auth token, the pieces obtained from the role's
padding string (or the default padding string if empty after trimming) by
splitting on `'.'`, trimming each piece and dropping empty pieces
(`paddingPiecesSpec`); with the flag unset no padding segments appear
regardless of the padding string; and the concrete example
`includeServerPadding=true`, `serverPadding="10-20.30-40"` yields
`"mlkem768x25519plus.native.600s.10-20.30-40.ABC"`. -/
theorem C3_padding_segments :
    (∀ (h e t p auth fb : String),
      buildConfig h e t p true auth fb =
        jsJoinDot ((h :: e :: normalizeOption (some t) fb :: paddingPiecesSpec p) ++ [auth])) ∧
    (∀ (h e t p p2 auth fb : String),
      buildConfig h e t p false auth fb = buildConfig h e t p2 false auth fb ∧
      buildConfig h e t p false auth fb =
        jsJoinDot [h, e, normalizeOption (some t) fb, auth]) ∧
    (∀ (ct cp : String) (icp : Bool) (xc ms mc : String),
      (generateVLESSEncryptionPure
          ⟨"mlkem768x25519plus", "native", "600s", ct, "10-20.30-40", cp, true, icp⟩
          ("ABC") xc ms mc).x25519.decryption =
        "mlkem768x25519plus.native.600s.10-20.30-40.ABC") := by
  refine ⟨?_, ?_, ?_⟩
  · intro h e t p auth fb
    simp [buildConfig_eq_join, sanitize_normalize_eq_spec]
  · intro h e t p p2 auth fb
    exact ⟨rfl, rfl⟩
  · intro ct cp icp xc ms mc
    rfl

/-- C4: a ticket that is absent, empty, or whitespace-only after trimming is
replaced by the fallback (the `normalizeOption` characterization); replacing
a whitespace-only server or client ticket behaves exactly as supplying the
role's default; the server fallback is the documented `"600s"`; and the
client fallback is sourced from the first enumerated resumption option,
whose value is `"0rtt"`. -/
theorem C4_ticket_fallbacks :
    (∀ (t : Option String) (fb : String),
      normalizeOption t fb =
        match t with
        | none => fb
        | some v => if jsTrim v = "" then fb else jsTrim v) ∧
    (∀ (opts : VlessBuilderOptions) (a b c d : String),
      (generateVLESSEncryptionPure { opts with serverTicket := "   " } a b c d).x25519 =
          (generateVLESSEncryptionPure { opts with serverTicket := DEFAULT_VLESS_SERVER_TICKET }
            a b c d).x25519 ∧
      (generateVLESSEncryptionPure { opts with serverTicket := "   " } a b c d).mlkem768 =
          (generateVLESSEncryptionPure { opts with serverTicket := DEFAULT_VLESS_SERVER_TICKET }
            a b c d).mlkem768) ∧
    (∀ (opts : VlessBuilderOptions) (a b c d : String),
      (generateVLESSEncryptionPure { opts with clientTicket := "  " } a b c d).x25519 =
          (generateVLESSEncryptionPure { opts with clientTicket := DEFAULT_VLESS_RESUME }
            a b c d).x25519 ∧
      (generateVLESSEncryptionPure { opts with clientTicket := "  " } a b c d).mlkem768 =
          (generateVLESSEncryptionPure { opts with clientTicket := DEFAULT_VLESS_RESUME }
            a b c d).mlkem768) ∧
    DEFAULT_VLESS_SERVER_TICKET = "600s" ∧
    (VLESS_RESUME_OPTIONS.map (fun o => o.value)).head? = some DEFAULT_VLESS_RESUME ∧
    DEFAULT_VLESS_RESUME = "0rtt" := by
  refine ⟨?_, fun _ _ _ _ _ => ⟨by exact Eq.refl _, by exact Eq.refl _⟩,
    fun _ _ _ _ _ => ⟨by exact Eq.refl _, by exact Eq.refl _⟩, rfl, rfl, rfl⟩
  intro t fb
  cases t with
  | none => rfl
  | some v =>
      simp only [normalizeOption]
      by_cases hv : v = ""
      · subst hv
        have h0 : jsTrim ("") = "" := by decide
        simp [h0]
      · rw [if_neg hv]
        by_cases hl : (jsTrim v).length > 0
        · have hne : ¬(jsTrim v = "") := (string_length_pos_iff _).mp hl
          rw [if_pos hl, if_neg hne]
        · have heq : jsTrim v = "" := by
            by_contra h
            exact hl ((string_length_pos_iff _).mpr h)
          rw [if_neg hl, if_pos heq]

/-- C5: within one generation call both variants' role strings consist of
the same option-derived segment lists (`serverSegments`/`clientSegments`
computed from the single shared options value) followed by the variant's
own auth token; hence toggling only `includeClientPadding` changes the two
variants' `encryption` outputs simultaneously (one changes exactly when the
other does) and leaves both `decryption` outputs unchanged. -/
theorem C5_no_variant_drift :
    ∀ (opts : VlessBuilderOptions) (xs xc ms mc : String),
      ((generateVLESSEncryptionPure opts xs xc ms mc).x25519.encryption =
          jsJoinDot (clientSegments opts ++ [xc]) ∧
        (generateVLESSEncryptionPure opts xs xc ms mc).mlkem768.encryption =
          jsJoinDot (clientSegments opts ++ [mc]) ∧
        (generateVLESSEncryptionPure opts xs xc ms mc).x25519.decryption =
          jsJoinDot (serverSegments opts ++ [xs]) ∧
        (generateVLESSEncryptionPure opts xs xc ms mc).mlkem768.decryption =
          jsJoinDot (serverSegments opts ++ [ms])) ∧
      ((generateVLESSEncryptionPure opts xs xc ms mc).x25519.encryption =
          (generateVLESSEncryptionPure
            { opts with includeClientPadding := !opts.includeClientPadding }
            xs xc ms mc).x25519.encryption ↔
        (generateVLESSEncryptionPure opts xs xc ms mc).mlkem768.encryption =
          (generateVLESSEncryptionPure
            { opts with includeClientPadding := !opts.includeClientPadding }
            xs xc ms mc).mlkem768.encryption) ∧
      (generateVLESSEncryptionPure opts xs xc ms mc).x25519.decryption =
        (generateVLESSEncryptionPure
          { opts with includeClientPadding := !opts.includeClientPadding }
          xs xc ms mc).x25519.decryption ∧
      (generateVLESSEncryptionPure opts xs xc ms mc).mlkem768.decryption =
        (generateVLESSEncryptionPure
          { opts with includeClientPadding := !opts.includeClientPadding }
          xs xc ms mc).mlkem768.decryption := by
  intro opts xs xc ms mc
  refine ⟨⟨rfl, rfl, rfl, rfl⟩, ?_, rfl, rfl⟩
  have hne1 : clientSegments opts ≠ [] := by simp [clientSegments]
  have hne2 :
      clientSegments { opts with includeClientPadding := !opts.includeClientPadding } ≠ [] := by
    simp [clientSegments]
  simp only [genVless_x25519_encryption, genVless_mlkem768_encryption]
  exact (jsJoinDot_append_cancel _ _ hne1 hne2 xc).trans
    (jsJoinDot_append_cancel _ _ hne1 hne2 mc).symm

/-- C6: the enumerated cipher set is exactly the two 2022 BLAKE3 AES-GCM
methods with key lengths 16 and 32, and for every method in it the
generated password is the standard base64 encoding of exactly
`method.length` random bytes: it is stored in the session state together
with the method label, and decoding it recovers exactly `method.length`
bytes. -/
theorem C6_password_length_roundtrip :
    SHADOWSOCKS_ENCRYPTION_METHODS.map (fun m => (m.value, m.length)) =
      [("2022-blake3-aes-128-gcm", 16), ("2022-blake3-aes-256-gcm", 32)] ∧
    ∀ (i : Fin SHADOWSOCKS_ENCRYPTION_METHODS.length) (rnd : Nat → Fin 256) (st : GenState),
      (generateShadowsocksPassword st (SHADOWSOCKS_ENCRYPTION_METHODS.get i).value
          (Except.ok rnd)).generatedShadowsocksPassword =
        some ⟨⟨encodeB64 ((List.range (SHADOWSOCKS_ENCRYPTION_METHODS.get i).length).map rnd)⟩,
          (SHADOWSOCKS_ENCRYPTION_METHODS.get i).label⟩ ∧
      decodeB64
          (encodeB64 ((List.range (SHADOWSOCKS_ENCRYPTION_METHODS.get i).length).map rnd)) =
        some (((List.range (SHADOWSOCKS_ENCRYPTION_METHODS.get i).length).map rnd).map
          Fin.val) ∧
      ((((List.range (SHADOWSOCKS_ENCRYPTION_METHODS.get i).length).map rnd).map
          Fin.val)).length = (SHADOWSOCKS_ENCRYPTION_METHODS.get i).length := by
  refine ⟨rfl, ?_⟩
  intro i rnd st
  refine ⟨?_, decodeB64_encodeB64 _, by simp⟩
  fin_cases i <;> exact Eq.refl _

/-- C9: every generation handler, run with a failing platform call, leaves
the whole session state unchanged except for clearing the in-progress flag,
appending an error notification, and bumping the instrumentation counter:
in particular every cached credential entry is exactly what it was (no
partial overwrite), and the handler is a total function (the exception is
caught inside it). -/
theorem C9_failure_atomicity :
    ∀ st : GenState,
      generatePrivateAndPublicKey st (Except.error ()) =
        { st with isGeneratingKeyPair := false,
                  toasts := st.toasts ++ [Toast.error CredKind.keyPair],
                  countKeyPair := st.countKeyPair + 1 } ∧
      generateShortId st (Except.error ()) =
        { st with isGeneratingShortId := false,
                  toasts := st.toasts ++ [Toast.error CredKind.shortId],
                  countShortId := st.countShortId + 1 } ∧
      (∀ i : Fin SHADOWSOCKS_ENCRYPTION_METHODS.length,
        generateShadowsocksPassword st (SHADOWSOCKS_ENCRYPTION_METHODS.get i).value
            (Except.error ()) =
          { st with isGeneratingShadowsocksPassword := false,
                    toasts := st.toasts ++ [Toast.error CredKind.shadowsocksPassword],
                    countShadowsocksPassword := st.countShadowsocksPassword + 1 }) ∧
      handleGenerateMldsa65 st (Except.error ()) =
        { st with isGeneratingMldsa65 := false,
                  toasts := st.toasts ++ [Toast.error CredKind.mldsa65],
                  countMldsa65 := st.countMldsa65 + 1 } ∧
      generateVLESSEncryption st (Except.error ()) =
        { st with isGeneratingVLESSEncryption := false,
                  toasts := st.toasts ++ [Toast.error CredKind.vlessEncryption],
                  countVLESS := st.countVLESS + 1 } := by
  intro st
  refine ⟨rfl, rfl, ?_, rfl, rfl⟩
  intro i
  fin_cases i <;> exact Eq.refl _

/-- C10: invoking the Shadowsocks password generator with a method
identifier outside the enumerated cipher set is a silent no-op: the
resulting state differs from the input state only in that the in-progress
flag is cleared — the cached password, result dialog and notifications are
untouched. -/
theorem C10_unknown_method_noop :
    ∀ (st : GenState) (value : String) (crypt : Except Unit (Nat → Fin 256)),
      SHADOWSOCKS_ENCRYPTION_METHODS.find? (fun m => m.value == value) = none →
      generateShadowsocksPassword st value crypt =
        { st with isGeneratingShadowsocksPassword := false } := by
  intro st value crypt h
  unfold generateShadowsocksPassword
  rw [h]

theorem C10_unknown_method_noop_witness :
    SHADOWSOCKS_ENCRYPTION_METHODS.find?
        (fun m => m.value == ("chacha20-ietf-poly1305")) = none ∧
    generateShadowsocksPassword initialGenState ("chacha20-ietf-poly1305")
        (Except.ok (fun _ => (0 : Fin 256))) =
      { initialGenState with isGeneratingShadowsocksPassword := false } :=
  ⟨by decide,
   C10_unknown_method_noop initialGenState ("chacha20-ietf-poly1305") _ (by decide)⟩

/-- C1 counterexample: from a state in which every kind has a cached value,
the dialog-close cleanup leaves every cached credential present — refuting
the claim that closing the dialog clears the Generation Session State
entirely (the source deliberately keeps the values for reuse). -/
theorem C1_close_counterexample :
    (dialogCloseCleanup cachedState).generatedKeyPair = some ⟨"PUB", "PRIV"⟩ ∧
    (dialogCloseCleanup cachedState).generatedShortId = some ("00ff00ff00ff00ff") ∧
    (dialogCloseCleanup cachedState).generatedShadowsocksPassword =
      some ⟨"PW", "2022-blake3-aes-128-gcm"⟩ ∧
    (dialogCloseCleanup cachedState).generatedMldsa65 = some ⟨"SEED", "VERIFY"⟩ ∧
    ¬((dialogCloseCleanup cachedState).generatedVLESS = none) :=
  ⟨rfl, rfl, rfl, rfl, fun h => Option.noConfusion h⟩

/-- C1 (amended): the dialog-close cleanup resets the dialog-local UI state
(fullscreen, results dialog, result payload, variant selection, builder
options, validation, editor readiness) and preserves every cached generated
credential unchanged. -/
theorem C1_close_keeps_caches :
    ∀ st : GenState,
      dialogCloseCleanup st =
        { st with isEditorFullscreen := false,
                  isResultsDialogOpen := false,
                  resultPayload := none,
                  selectedVlessVariant := "x25519",
                  vlessOptions := createDefaultVlessOptions,
                  validationIsValid := true,
                  isEditorReady := false } ∧
      (dialogCloseCleanup st).generatedKeyPair = st.generatedKeyPair ∧
      (dialogCloseCleanup st).generatedShortId = st.generatedShortId ∧
      (dialogCloseCleanup st).generatedShadowsocksPassword =
        st.generatedShadowsocksPassword ∧
      (dialogCloseCleanup st).generatedMldsa65 = st.generatedMldsa65 ∧
      (dialogCloseCleanup st).generatedVLESS = st.generatedVLESS :=
  fun _ => ⟨rfl, rfl, rfl, rfl, rfl, rfl⟩

/-- C8 counterexample: on `{"inbounds":[{"tag":"A"},null]}` the claim's
literal reading collects `["A"]`, but the code's property access on the
`null` element throws and the caught exception yields `[]`; and on
`{"inbounds":[{"tag":" "}]}` the claim's literal reading collects `[" "]`
(a non-empty string), but the code requires a non-empty trim and yields
`[]`. -/
theorem C8_extraction_counterexample :
    extract_inbound_tags ("\x7b\"inbounds\":[\x7b\"tag\":\"A\"\x7d,null]\x7d") = [] ∧
    extractInboundTagsClaim ("\x7b\"inbounds\":[\x7b\"tag\":\"A\"\x7d,null]\x7d") = ["A"] ∧
    extract_inbound_tags ("\x7b\"inbounds\":[\x7b\"tag\":\" \"\x7d]\x7d") = [] ∧
    extractInboundTagsClaim ("\x7b\"inbounds\":[\x7b\"tag\":\" \"\x7d]\x7d") = [" "] :=
  ⟨by decide, by decide, by decide, by decide⟩

/-- C8 (amended): inbound-tag extraction is the pure function of the
document text that parses it as JSON and, when an `inbounds` array is
present, collects in document order the `tag` of every element whose tag is
a string with non-empty trim; it yields the empty list on parse failure, on
a missing or mismatched `inbounds` field, and also whenever some array
element is `null` (property access on `null` throws and the exception is
caught).  The claim's concrete example yields exactly `["A"]`. -/
theorem C8_tag_extraction :
    extract_inbound_tags
        ("\x7b\"inbounds\":[\x7b\"tag\":\"A\"\x7d,\x7b\"tag\":\"\"\x7d,\x7b\"notag\":1\x7d]\x7d") =
      ["A"] ∧
    ∀ text : String,
      extract_inbound_tags text =
        match parseJson text with
        | none => []
        | some v =>
            match inboundsArrOf v with
            | none => []
            | some xs => if hasNullElem xs then [] else xs.filterMap tagOfKeep :=
  ⟨by decide, extract_inbound_tags_characterization⟩

/-- C7 counterexample: from a state with a cached VLESS result, the result
dialog's regenerate button for the VLESS kind opens the advanced builder
dialog but invokes no generation and overwrites nothing — the generation
counter stays at its old value (here 0) and the cache entry is unchanged —
refuting the claim that an explicit regenerate always invokes generation
and overwrites that kind's cache entry. -/
theorem C7_regenerate_vless_counterexample :
    (regenerate cachedState CredKind.vlessEncryption sampleOracles).countVLESS =
      cachedState.countVLESS ∧
    (regenerate cachedState CredKind.vlessEncryption sampleOracles).generatedVLESS =
      cachedState.generatedVLESS ∧
    (regenerate cachedState CredKind.vlessEncryption sampleOracles).isVlessAdvancedModalOpen =
      true ∧
    cachedState.countVLESS = 0 :=
  ⟨rfl, rfl, rfl, rfl⟩

/-- C7 (amended): a view on a cached credential only shows the cached value
(no generation, no counter change); a view on an empty cache delegates to
the kind's generator for the four direct kinds, while the VLESS kind opens
the builder dialog instead; the regenerate button invokes the generator
(overwriting the cache and bumping the counter) for the four direct kinds,
while the VLESS kind re-opens the builder dialog whose generate action
always overwrites the cache and bumps the counter; and after one successful
generate followed by two views the per-kind generation counter is exactly
1 for every kind. -/
theorem C7_view_regenerate_semantics :
    (∀ (st : GenState) (v : KeyPairV) (o : Except Unit KeyPairV),
      viewKeyPair { st with generatedKeyPair := some v } o =
        { st with generatedKeyPair := some v, isResultsDialogOpen := true,
                  resultPayload := some (ResultPayload.keyPair v) }) ∧
    (∀ (st : GenState) (v : String) (o : Except Unit String),
      viewShortId { st with generatedShortId := some v } o =
        { st with generatedShortId := some v, isResultsDialogOpen := true,
                  resultPayload := some (ResultPayload.shortId v) }) ∧
    (∀ (st : GenState) (v : ShadowsocksCredential) (o : Except Unit (Nat → Fin 256)),
      viewShadowsocksPassword { st with generatedShadowsocksPassword := some v } o =
        { st with generatedShadowsocksPassword := some v, isResultsDialogOpen := true,
                  resultPayload := some (ResultPayload.shadowsocksPassword v) }) ∧
    (∀ (st : GenState) (v : Mldsa65Result) (o : Except Unit Mldsa65Result),
      viewMldsa65 { st with generatedMldsa65 := some v } o =
        { st with generatedMldsa65 := some v, isResultsDialogOpen := true,
                  resultPayload := some (ResultPayload.mldsa65 v) }) ∧
    (∀ (st : GenState) (v : VlessResult),
      viewVLESS { st with generatedVLESS := some v } =
        { st with generatedVLESS := some v, isResultsDialogOpen := true,
                  resultPayload := some (ResultPayload.vlessEncryption v) }) ∧
    (∀ (st : GenState) (o : Except Unit KeyPairV),
      viewKeyPair { st with generatedKeyPair := none } o =
        generatePrivateAndPublicKey { st with generatedKeyPair := none } o) ∧
    (∀ (st : GenState) (o : Except Unit String),
      viewShortId { st with generatedShortId := none } o =
        generateShortId { st with generatedShortId := none } o) ∧
    (∀ (st : GenState) (o : Except Unit (Nat → Fin 256)),
      viewShadowsocksPassword { st with generatedShadowsocksPassword := none } o =
        generateShadowsocksPassword { st with generatedShadowsocksPassword := none }
          st.selectedEncryptionMethod o) ∧
    (∀ (st : GenState) (o : Except Unit Mldsa65Result),
      viewMldsa65 { st with generatedMldsa65 := none } o =
        handleGenerateMldsa65 { st with generatedMldsa65 := none } o) ∧
    (∀ st : GenState,
      viewVLESS { st with generatedVLESS := none } =
        { st with generatedVLESS := none, isVlessAdvancedModalOpen := true }) ∧
    (∀ (st : GenState) (o : GenOracles) (v : KeyPairV),
      regenerate st CredKind.keyPair { o with keyPair := Except.ok v } =
        { st with isGeneratingKeyPair := false, generatedKeyPair := some v,
                  isResultsDialogOpen := true,
                  resultPayload := some (ResultPayload.keyPair v),
                  toasts := st.toasts ++ [Toast.success CredKind.keyPair],
                  countKeyPair := st.countKeyPair + 1 }) ∧
    (∀ (st : GenState) (o : GenOracles) (v : String),
      regenerate st CredKind.shortId { o with shortId := Except.ok v } =
        { st with isGeneratingShortId := false, generatedShortId := some v,
                  isResultsDialogOpen := true,
                  resultPayload := some (ResultPayload.shortId v),
                  toasts := st.toasts ++ [Toast.success CredKind.shortId],
                  countShortId := st.countShortId + 1 }) ∧
    (∀ (st : GenState) (o : GenOracles) (i : Fin SHADOWSOCKS_ENCRYPTION_METHODS.length)
        (rnd : Nat → Fin 256),
      regenerate
          { st with selectedEncryptionMethod := (SHADOWSOCKS_ENCRYPTION_METHODS.get i).value }
          CredKind.shadowsocksPassword { o with crypt := Except.ok rnd } =
        { st with
            selectedEncryptionMethod := (SHADOWSOCKS_ENCRYPTION_METHODS.get i).value,
            isGeneratingShadowsocksPassword := false,
            generatedShadowsocksPassword :=
              some ⟨⟨encodeB64
                  ((List.range (SHADOWSOCKS_ENCRYPTION_METHODS.get i).length).map rnd)⟩,
                (SHADOWSOCKS_ENCRYPTION_METHODS.get i).label⟩,
            isResultsDialogOpen := true,
            resultPayload :=
              some (ResultPayload.shadowsocksPassword
                ⟨⟨encodeB64
                    ((List.range (SHADOWSOCKS_ENCRYPTION_METHODS.get i).length).map rnd)⟩,
                  (SHADOWSOCKS_ENCRYPTION_METHODS.get i).label⟩),
            toasts := st.toasts ++ [Toast.success CredKind.shadowsocksPassword],
            countShadowsocksPassword := st.countShadowsocksPassword + 1 }) ∧
    (∀ (st : GenState) (o : GenOracles) (v : Mldsa65Result),
      regenerate st CredKind.mldsa65 { o with mldsa := Except.ok v } =
        { st with isGeneratingMldsa65 := false, generatedMldsa65 := some v,
                  isResultsDialogOpen := true,
                  resultPayload := some (ResultPayload.mldsa65 v),
                  toasts := st.toasts ++ [Toast.success CredKind.mldsa65],
                  countMldsa65 := st.countMldsa65 + 1 }) ∧
    (∀ (st : GenState) (o : GenOracles),
      regenerate st CredKind.vlessEncryption o =
        { st with isVlessAdvancedModalOpen := true, isResultsDialogOpen := false }) ∧
    (∀ (st : GenState) (a b c d : String),
      (generateVLESSEncryption st (Except.ok (a, b, c, d))).generatedVLESS =
        some (generateVLESSEncryptionPure st.vlessOptions a b c d) ∧
      (generateVLESSEncryption st (Except.ok (a, b, c, d))).countVLESS =
        st.countVLESS + 1) ∧
    (∀ (st : GenState) (v : KeyPairV) (o1 o2 : Except Unit KeyPairV),
      (viewKeyPair (viewKeyPair
          (generatePrivateAndPublicKey { st with countKeyPair := 0 } (Except.ok v)) o1)
        o2).countKeyPair = 1) ∧
    (∀ (st : GenState) (v : String) (o1 o2 : Except Unit String),
      (viewShortId (viewShortId
          (generateShortId { st with countShortId := 0 } (Except.ok v)) o1)
        o2).countShortId = 1) ∧
    (∀ (st : GenState) (i : Fin SHADOWSOCKS_ENCRYPTION_METHODS.length) (rnd : Nat → Fin 256)
        (o1 o2 : Except Unit (Nat → Fin 256)),
      (viewShadowsocksPassword (viewShadowsocksPassword
          (generateShadowsocksPassword { st with countShadowsocksPassword := 0 }
            (SHADOWSOCKS_ENCRYPTION_METHODS.get i).value (Except.ok rnd)) o1)
        o2).countShadowsocksPassword = 1) ∧
    (∀ (st : GenState) (v : Mldsa65Result) (o1 o2 : Except Unit Mldsa65Result),
      (viewMldsa65 (viewMldsa65
          (handleGenerateMldsa65 { st with countMldsa65 := 0 } (Except.ok v)) o1)
        o2).countMldsa65 = 1) ∧
    (∀ (st : GenState) (a b c d : String),
      (viewVLESS (viewVLESS
          (generateVLESSEncryption { st with countVLESS := 0 }
            (Except.ok (a, b, c, d))))).countVLESS = 1) := by
  refine ⟨fun _ _ _ => rfl, fun _ _ _ => rfl, fun _ _ _ => rfl, fun _ _ _ => rfl,
    fun _ _ => rfl, fun _ _ => rfl, fun _ _ => rfl, fun _ _ => rfl, fun _ _ => rfl,
    fun _ => rfl, fun _ _ _ => rfl, fun _ _ _ => rfl, ?_, fun _ _ _ => rfl,
    fun _ _ => rfl, fun _ _ _ _ _ => ⟨rfl, rfl⟩, fun _ _ _ _ => rfl, fun _ _ _ _ => rfl,
    ?_, fun _ _ _ _ => rfl, fun _ _ _ _ _ => rfl⟩
  · intro st o i rnd
    fin_cases i <;> exact Eq.refl _
  · intro st i rnd o1 o2
    fin_cases i <;> exact Eq.refl _
